import Mathlib

/-!
Shallow embedding of two files of the streamlit frontend slice:
the app-skeleton component (delayed-visibility placeholder) and the
sidebar styled-components module (declarative style rules keyed by
component props and a shared theme object).
-/

/-! ## App skeleton component -/

/-- Modelled from the spec: the skeleton element proto (`SkeletonProto`,
imported from the proto package, not in this slice) carries a numeric
element-height rendering prop consumed by the component. -/
structure SkeletonProto where
  height : Nat
deriving DecidableEq, Repr

/-- The fixed reveal delay, in milliseconds (`SHOW_DELAY_MS = 500`). -/
def SHOW_DELAY_MS : Nat := 500

/-- A child node of the rendered skeleton layout, mirroring the JSX
children of `StyledSkeleton` in `RawAppSkeleton`. -/
inductive SkeletonChild where
  | titleSkeleton : SkeletonChild
  | paragraphSkeleton (lineWidths : List String) : SkeletonChild
  | squareSkeleton (width : String) (height : String) : SkeletonChild
deriving DecidableEq, Repr

/-- The render result of `RawAppSkeleton`: either the empty fragment
(`<></>`) or the `StyledSkeleton` element with its test id and children. -/
inductive SkeletonRender where
  | emptyFragment : SkeletonRender
  | styledSkeleton (testId : String) (children : List SkeletonChild) : SkeletonRender
deriving DecidableEq, Repr

/-- The render body of `RawAppSkeleton`, as a function of the current
value of the `visible` state flag: `if (!visible) return <></>`, else the
static placeholder layout with the square skeleton height computed as
`element.height + "pt"`. -/
def renderRawAppSkeleton (element : SkeletonProto) (visible : Bool) : SkeletonRender :=
  if !visible then .emptyFragment
  else
    .styledSkeleton "stAppSkeleton"
      [ .titleSkeleton,
        .paragraphSkeleton ["98%", "100%", "96%", "65%"],
        .squareSkeleton "75%" (toString element.height ++ "pt") ]

/-- The component-local state of `RawAppSkeleton`: the `visible` flag from
`useState(false)` and whether the one-shot `setTimeout` timer is still
pending (armed on mount, disarmed by firing or by `clearTimeout`). -/
structure SkeletonState where
  visible : Bool
  timerActive : Bool
deriving DecidableEq, Repr

/-- The state right after mount: `useState(false)` and the `useEffect`
that arms the one-shot timer. -/
def mountState : SkeletonState := { visible := false, timerActive := true }

/-- The events acting on the skeleton state: the timer callback firing,
and the effect cleanup (`clearTimeout`) run on unmount. -/
inductive SkEvent where
  | timerFire : SkEvent
  | cleanup : SkEvent
deriving DecidableEq, Repr

/-- One step of the skeleton state machine. The timer callback runs
`setVisible(true)` only if the timer is still pending (a one-shot timer
fires at most once, and not after `clearTimeout`); the cleanup cancels
the timer and leaves `visible` untouched. -/
def skStep (s : SkeletonState) : SkEvent → SkeletonState
  | .timerFire => if s.timerActive then { visible := true, timerActive := false } else s
  | .cleanup => { s with timerActive := false }

/-- Run a sequence of events from a state. -/
def skRun (s : SkeletonState) : List SkEvent → SkeletonState
  | [] => s
  | e :: es => skRun (skStep s e) es

/-- Number of steps along an event sequence at which the `visible` flag
changes value. -/
def skFlips (s : SkeletonState) : List SkEvent → Nat
  | [] => 0
  | e :: es =>
    (if (skStep s e).visible = s.visible then 0 else 1) + skFlips (skStep s e) es

/-- The time-indexed state of a mounted component that is never
unmounted: the `setTimeout` callback runs once `SHOW_DELAY_MS`
milliseconds have elapsed since mount, and before that the state is the
mount state. -/
def stateAt (t : Nat) : SkeletonState :=
  if t < SHOW_DELAY_MS then mountState else skStep mountState .timerFire

/-- What `RawAppSkeleton` shows `t` milliseconds after mount. -/
def renderAt (element : SkeletonProto) (t : Nat) : SkeletonRender :=
  renderRawAppSkeleton element (stateAt t).visible

/-- Heights of the square-skeleton children of a render result. -/
def squareHeights : SkeletonRender → List String
  | .emptyFragment => []
  | .styledSkeleton _ children => children.filterMap fun c =>
      match c with
      | .squareSkeleton _ h => some h
      | _ => none

/-! ## Sidebar styled-components module

Each emotion style rule `styled.x<Props>(({ theme, ...props }) => ({...}))`
is embedded as a function from its props and the browser world (theme
object plus the globals the module may read) to the produced static style
description paired with the world it leaves behind, so that reads of
global state and absence of mutation are explicit. -/

/-- The color tokens of the theme read by the sidebar module. -/
structure ThemeColors where
  bgColor : String
  bodyText : String
  fadedText10 : String
  fadedText20 : String
  fadedText60 : String
  darkenedBgMix15 : String
  darkenedBgMix25 : String
  gray60 : String
  transparent : String
  primary : String
deriving DecidableEq, Repr

/-- The z-index tokens of the theme read by the sidebar module. -/
structure ThemeZIndices where
  header : Int
  sidebarMobile : Int
deriving DecidableEq, Repr

/-- The breakpoint tokens of the theme read by the sidebar module. -/
structure ThemeBreakpoints where
  md : String
deriving DecidableEq, Repr

/-- The spacing tokens of the theme read by the sidebar module. -/
structure ThemeSpacing where
  none : String
  threeXS : String
  twoXS : String
  xs : String
  sm : String
  lg : String
  twoXL : String
deriving DecidableEq, Repr

/-- The size tokens of the theme read by the sidebar module. -/
structure ThemeSizes where
  sidebarTopSpace : String
deriving DecidableEq, Repr

/-- The line-height tokens of the theme read by the sidebar module. -/
structure ThemeLineHeights where
  menuItem : String
deriving DecidableEq, Repr

/-- The font-size tokens of the theme read by the sidebar module. -/
structure ThemeFontSizes where
  sm : String
deriving DecidableEq, Repr

/-- The externally owned theme configuration object. -/
structure Theme where
  colors : ThemeColors
  zIndices : ThemeZIndices
  breakpoints : ThemeBreakpoints
  spacing : ThemeSpacing
  sizes : ThemeSizes
  lineHeights : ThemeLineHeights
  fontSizes : ThemeFontSizes
deriving DecidableEq, Repr

/-- The browser world visible to the module: the theme object, the
global `window.innerWidth`, and the rest of the global state (which the
module never reads), kept abstract as a number. -/
structure World where
  theme : Theme
  innerWidth : ℚ
  otherGlobals : Nat
deriving DecidableEq, Repr

/-- A CSS `overflow` value that is either a single keyword or a fallback
array of keywords (emotion accepts both). -/
inductive OverflowValue where
  | single (v : String) : OverflowValue
  | fallback (vs : List String) : OverflowValue
deriving DecidableEq, Repr

/-- Modelled from the spec: `transparentize` from the external `color2k`
library is not in this slice; it derives a new color string from a color
string and an amount, deterministically. Represented symbolically. -/
def transparentize (color : String) (amount : ℚ) : String :=
  "transparentize(" ++ color ++ ", " ++ toString amount ++ ")"

/-- Modelled from the spec: `getWrappedHeadersStyle` from the theme
utilities (`@streamlit/lib/src/theme/utils`) is not in this slice; per
the spec, style derivation is a pure function of the theme producing a
static style description, so its result is kept abstract as a token
determined by the theme it was given. -/
structure WrappedHeadersStyle where
  ofTheme : Theme
deriving DecidableEq, Repr

/-- Modelled from the spec: see `WrappedHeadersStyle`. -/
def getWrappedHeadersStyle (theme : Theme) : WrappedHeadersStyle :=
  { ofTheme := theme }

/-- The `keyframes` template for the (unused) bounce animation. -/
def bounceAnimation : String :=
  "from, to \x7b transform: translateY(0); \x7d 50% \x7b transform: translateY(-0.25rem); \x7d"

/-- Props of `StyledSidebar`. -/
structure StyledSidebarProps where
  isCollapsed : Bool
  adjustTop : Bool
  sidebarWidth : String
deriving DecidableEq, Repr

/-- The `&:focus` block of `StyledSidebar` and `StyledSidebarNavLink`. -/
structure FocusStyle where
  outline : String
deriving DecidableEq, Repr

/-- The `@media print` block of `StyledSidebar`. -/
structure SidebarPrintStyle where
  backgroundColor : String
  margin : String
  boxShadow : String
  maxWidth : String
  minWidth : String
  width : String
  paddingTop : String
deriving DecidableEq, Repr

/-- The style object produced by `StyledSidebar`. -/
structure StyledSidebarStyle where
  position : String
  top : String
  backgroundColor : String
  zIndex : Int
  minWidth : ℚ
  maxWidth : ℚ
  transform : String
  transition : String
  focus : FocusStyle
  mediaMdQuery : String
  mediaMdBoxShadow : String
  mediaPrint : SidebarPrintStyle
deriving DecidableEq, Repr

/-- The `StyledSidebar` style rule. It reads `window.innerWidth` from the
browser world in addition to its props and the theme. -/
def StyledSidebar (p : StyledSidebarProps) (w : World) : StyledSidebarStyle × World :=
  let theme := w.theme
  let minWidth : ℚ := if p.isCollapsed then 0 else min 244 w.innerWidth
  let maxWidth : ℚ := if p.isCollapsed then 0 else min 550 (w.innerWidth * (9 / 10))
  ({ position := "relative"
     top := if p.adjustTop then "2px" else "0px"
     backgroundColor := theme.colors.bgColor
     zIndex := theme.zIndices.header + 1
     minWidth := minWidth
     maxWidth := maxWidth
     transform := if p.isCollapsed then "translateX(-" ++ p.sidebarWidth ++ "px)" else "none"
     transition := "transform 300ms, min-width 300ms, max-width 300ms"
     focus := { outline := "none" }
     mediaMdQuery := "@media (max-width: " ++ theme.breakpoints.md ++ ")"
     mediaMdBoxShadow :=
       "-2rem 0 2rem 2rem " ++ (if p.isCollapsed then "transparent" else "#00000029")
     mediaPrint :=
       { backgroundColor := "transparent"
         margin := "auto"
         boxShadow := "none"
         maxWidth := "none"
         minWidth := "100%"
         width := "100% !important"
         paddingTop := "1rem" } }, w)

/-- The style object produced by `StyledSidebarNavContainer`. -/
structure StyledSidebarNavContainerStyle where
  position : String
deriving DecidableEq, Repr

/-- The `StyledSidebarNavContainer` style rule (no props). -/
def StyledSidebarNavContainer (w : World) : StyledSidebarNavContainerStyle × World :=
  ({ position := "relative" }, w)

/-- Props of `StyledSidebarNavItems`. -/
structure StyledSidebarNavItemsProps where
  isExpanded : Bool
  isOverflowing : Bool
  hasSidebarElements : Bool
deriving DecidableEq, Repr

/-- The `&::before` block of `StyledSidebarNavItems` (when overflowing). -/
structure NavItemsBeforeStyle where
  content : String
  backgroundImage : String
  width : String
  height : String
  position : String
  top : Int
  left : Int
  right : Int
  pointerEvents : String
deriving DecidableEq, Repr

/-- The `&::after` block of `StyledSidebarNavItems` (when overflowing). -/
structure NavItemsAfterStyle where
  content : String
  backgroundImage : String
  height : String
  position : String
  bottom : Int
  left : Int
  right : Int
  pointerEvents : String
deriving DecidableEq, Repr

/-- The style object produced by `StyledSidebarNavItems`. -/
structure StyledSidebarNavItemsStyle where
  maxHeight : String
  listStyle : String
  overflow : OverflowValue
  margin : Int
  paddingTop : String
  paddingBottom : String
  mediaPrintPaddingTop : String
  before : Option NavItemsBeforeStyle
  after : Option NavItemsAfterStyle
deriving DecidableEq, Repr

/-- The `StyledSidebarNavItems` style rule. -/
def StyledSidebarNavItems (p : StyledSidebarNavItemsProps) (w : World) :
    StyledSidebarNavItemsStyle × World :=
  let theme := w.theme
  let isExpandedMaxHeight := if p.isExpanded then "75vh" else "33vh"
  let maxHeight := if p.hasSidebarElements then isExpandedMaxHeight else "100vh"
  ({ maxHeight := maxHeight
     listStyle := "none"
     overflow := .fallback ["auto", "overlay"]
     margin := 0
     paddingTop := theme.spacing.lg
     paddingBottom := theme.spacing.lg
     mediaPrintPaddingTop := theme.spacing.sm
     before :=
       if p.isOverflowing then
         some
           { content := "\" \""
             backgroundImage :=
               "linear-gradient(0deg, transparent, " ++ theme.colors.bgColor ++ ")"
             width := "100%"
             height := "2rem"
             position := "absolute"
             top := 0
             left := 0
             right := 0
             pointerEvents := "none" }
       else none
     after :=
       if p.isOverflowing then
         some
           { content := "\" \""
             backgroundImage :=
               "linear-gradient(0deg, " ++ theme.colors.bgColor ++ ", transparent)"
             height := "2rem"
             position := "absolute"
             bottom := 0
             left := 0
             right := 0
             pointerEvents := "none" }
       else none }, w)

/-- Props of `StyledSidebarNavSeparatorContainer`. -/
structure StyledSidebarNavSeparatorContainerProps where
  isExpanded : Bool
  isOverflowing : Bool
deriving DecidableEq, Repr

/-- The style object produced by `StyledSidebarNavSeparatorContainer`. -/
structure StyledSidebarNavSeparatorContainerStyle where
  cursor : String
  position : String
  height : String
  left : Int
  right : Int
  bottom : Int
  display : String
  alignItems : String
  justifyContent : String
  color : String
  borderBottom : String
  transition : String
deriving DecidableEq, Repr

/-- The `StyledSidebarNavSeparatorContainer` style rule. -/
def StyledSidebarNavSeparatorContainer (p : StyledSidebarNavSeparatorContainerProps)
    (w : World) : StyledSidebarNavSeparatorContainerStyle × World :=
  let theme := w.theme
  ({ cursor := if p.isExpanded || p.isOverflowing then "pointer" else "default"
     position := "absolute"
     height := theme.spacing.lg
     left := 0
     right := 0
     bottom := 0
     display := "flex"
     alignItems := "center"
     justifyContent := "center"
     color := theme.colors.fadedText60
     borderBottom := "1px solid " ++ theme.colors.fadedText10
     transition := "color 500ms" }, w)

/-- The style object produced by `StyledSidebarNavLinkContainer`. -/
structure StyledSidebarNavLinkContainerStyle where
  display : String
  flexDirection : String
deriving DecidableEq, Repr

/-- The `StyledSidebarNavLinkContainer` style rule (no props). -/
def StyledSidebarNavLinkContainer (w : World) :
    StyledSidebarNavLinkContainerStyle × World :=
  ({ display := "flex", flexDirection := "column" }, w)

/-- Props of `StyledSidebarNavLink` and `StyledSidebarLinkText`. -/
structure StyledSidebarNavLinkProps where
  isActive : Bool
deriving DecidableEq, Repr

/-- The `defaultPageLinkStyles` object computed inside
`StyledSidebarNavLink`, spread at top level and into the
`&:active,&:visited,&:hover` block. -/
structure PageLinkStyles where
  textDecoration : String
  fontWeight : Int
deriving DecidableEq, Repr

/-- The style object produced by `StyledSidebarNavLink`. -/
structure StyledSidebarNavLinkStyle where
  textDecoration : String
  fontWeight : Int
  display : String
  flexDirection : String
  alignItems : String
  gap : String
  borderRadius : String
  paddingLeft : String
  paddingRight : String
  marginLeft : String
  marginRight : String
  marginTop : String
  marginBottom : String
  lineHeight : String
  backgroundColor : String
  hoverBackgroundColor : String
  activeVisitedHover : PageLinkStyles
  focus : FocusStyle
  focusVisibleBackgroundColor : String
  mediaPrintPaddingLeft : String
deriving DecidableEq, Repr

/-- The `StyledSidebarNavLink` style rule. -/
def StyledSidebarNavLink (p : StyledSidebarNavLinkProps) (w : World) :
    StyledSidebarNavLinkStyle × World :=
  let theme := w.theme
  let defaultPageLinkStyles : PageLinkStyles :=
    { textDecoration := "none"
      fontWeight := if p.isActive then 600 else 400 }
  ({ textDecoration := defaultPageLinkStyles.textDecoration
     fontWeight := defaultPageLinkStyles.fontWeight
     display := "flex"
     flexDirection := "row"
     alignItems := "center"
     gap := theme.spacing.sm
     borderRadius := theme.spacing.twoXS
     paddingLeft := theme.spacing.sm
     paddingRight := theme.spacing.sm
     marginLeft := theme.spacing.lg
     marginRight := theme.spacing.lg
     marginTop := theme.spacing.threeXS
     marginBottom := theme.spacing.threeXS
     lineHeight := theme.lineHeights.menuItem
     backgroundColor :=
       if p.isActive then theme.colors.darkenedBgMix15 else "transparent"
     hoverBackgroundColor :=
       if p.isActive then theme.colors.darkenedBgMix25 else theme.colors.darkenedBgMix15
     activeVisitedHover := defaultPageLinkStyles
     focus := { outline := "none" }
     focusVisibleBackgroundColor := theme.colors.darkenedBgMix15
     mediaPrintPaddingLeft := theme.spacing.none }, w)

/-- The style object produced by `StyledSidebarLinkText`. -/
structure StyledSidebarLinkTextStyle where
  color : String
  overflow : OverflowValue
  whiteSpace : String
  textOverflow : String
  display : String
deriving DecidableEq, Repr

/-- The `StyledSidebarLinkText` style rule. -/
def StyledSidebarLinkText (p : StyledSidebarNavLinkProps) (w : World) :
    StyledSidebarLinkTextStyle × World :=
  let theme := w.theme
  ({ color := if p.isActive then theme.colors.bodyText else theme.colors.fadedText60
     overflow := .single "hidden"
     whiteSpace := "nowrap"
     textOverflow := "ellipsis"
     display := "table-cell" }, w)

/-- Props of `StyledSidebarUserContent`. -/
structure StyledSidebarUserContentProps where
  hasPageNavAbove : Bool
deriving DecidableEq, Repr

/-- The style object produced by `StyledSidebarUserContent`. -/
structure StyledSidebarUserContentStyle where
  paddingTop : String
  paddingBottom : String
  paddingLeft : String
  paddingRight : String
  mediaPrintPaddingTop : String
  wrappedHeaders : WrappedHeadersStyle
deriving DecidableEq, Repr

/-- The `StyledSidebarUserContent` style rule. -/
def StyledSidebarUserContent (p : StyledSidebarUserContentProps) (w : World) :
    StyledSidebarUserContentStyle × World :=
  let theme := w.theme
  ({ paddingTop := if p.hasPageNavAbove then theme.spacing.lg else "0"
     paddingBottom := theme.sizes.sidebarTopSpace
     paddingLeft := theme.spacing.twoXL
     paddingRight := theme.spacing.twoXL
     mediaPrintPaddingTop := "1rem"
     wrappedHeaders := getWrappedHeadersStyle theme }, w)

/-- Props of `StyledSidebarContent`. -/
structure StyledSidebarContentProps where
  hideScrollbar : Bool
deriving DecidableEq, Repr

/-- The style object produced by `StyledSidebarContent`. -/
structure StyledSidebarContentStyle where
  position : String
  height : String
  width : String
  overflow : OverflowValue
deriving DecidableEq, Repr

/-- The `StyledSidebarContent` style rule. -/
def StyledSidebarContent (p : StyledSidebarContentProps) (w : World) :
    StyledSidebarContentStyle × World :=
  ({ position := "relative"
     height := "100%"
     width := "100%"
     overflow :=
       if p.hideScrollbar then .single "hidden" else .fallback ["auto", "overlay"] }, w)

/-- The style object produced by `StyledSidebarCloseButton`. -/
structure StyledSidebarCloseButtonStyle where
  position : String
  top : String
  right : String
  zIndex : Int
  hoverButtonBackgroundColor : String
  mediaPrintDisplay : String
deriving DecidableEq, Repr

/-- The `StyledSidebarCloseButton` style rule (theme only). -/
def StyledSidebarCloseButton (w : World) : StyledSidebarCloseButtonStyle × World :=
  let theme := w.theme
  ({ position := "absolute"
     top := theme.spacing.xs
     right := theme.spacing.twoXS
     zIndex := 1
     hoverButtonBackgroundColor := transparentize theme.colors.fadedText60 (1 / 2)
     mediaPrintDisplay := "none" }, w)

/-- Props of `StyledSidebarCollapsedControl`. -/
structure StyledSidebarCollapsedControlProps where
  chevronDownshift : Int
  isCollapsed : Bool
deriving DecidableEq, Repr

/-- The style object produced by `StyledSidebarCollapsedControl`. -/
structure StyledSidebarCollapsedControlStyle where
  position : String
  top : String
  left : String
  zIndex : Int
  transition : String
  transitionDelay : String
  color : String
  mediaMdQuery : String
  mediaMdColor : String
  mediaPrintDisplay : String
deriving DecidableEq, Repr

/-- The `StyledSidebarCollapsedControl` style rule. The `top` value uses
JavaScript truthiness of the numeric `chevronDownshift` prop: zero picks
the theme spacing fallback. -/
def StyledSidebarCollapsedControl (p : StyledSidebarCollapsedControlProps) (w : World) :
    StyledSidebarCollapsedControlStyle × World :=
  let theme := w.theme
  ({ position := "fixed"
     top := if p.chevronDownshift ≠ 0 then toString p.chevronDownshift ++ "px"
            else theme.spacing.sm
     left := if p.isCollapsed then theme.spacing.twoXS else "-" ++ theme.spacing.twoXS
     zIndex := theme.zIndices.header
     transition := "left 300ms"
     transitionDelay := "left 300ms"
     color := theme.colors.bodyText
     mediaMdQuery := "@media (max-width: " ++ theme.breakpoints.md ++ ")"
     mediaMdColor := theme.colors.bodyText
     mediaPrintDisplay := "none" }, w)

/-- The style object produced by `StyledResizeHandle`. -/
structure StyledResizeHandleStyle where
  position : String
  width : String
  height : String
  cursor : String
  zIndex : Int
  hoverBackgroundImage : String
deriving DecidableEq, Repr

/-- The `StyledResizeHandle` style rule (theme only). -/
def StyledResizeHandle (w : World) : StyledResizeHandleStyle × World :=
  let theme := w.theme
  ({ position := "absolute"
     width := "8px"
     height := "100%"
     cursor := "col-resize"
     zIndex := theme.zIndices.sidebarMobile
     hoverBackgroundImage :=
       "linear-gradient(to right, transparent 20%, " ++ theme.colors.fadedText20 ++
         " 28%, transparent 36%)" }, w)

/-- The style object produced by `StyledSidebarOpenContainer`. -/
structure StyledSidebarOpenContainerStyle where
  display : String
  justifyContent : String
  alignItems : String
  padding : String
deriving DecidableEq, Repr

/-- The `StyledSidebarOpenContainer` style rule (theme only). -/
def StyledSidebarOpenContainer (w : World) : StyledSidebarOpenContainerStyle × World :=
  let theme := w.theme
  ({ display := "flex"
     justifyContent := "space-between"
     alignItems := "start"
     padding := theme.spacing.twoXL ++ " 0 0 " ++ theme.spacing.twoXL }, w)

/-- The style object produced by `StyledSidebarOpenButtonContainer`. -/
structure StyledSidebarOpenButtonContainerStyle where
  zIndex : Int
  marginLeft : String
  height : String
deriving DecidableEq, Repr

/-- The `StyledSidebarOpenButtonContainer` style rule (theme only). -/
def StyledSidebarOpenButtonContainer (w : World) :
    StyledSidebarOpenButtonContainerStyle × World :=
  let theme := w.theme
  ({ zIndex := theme.zIndices.header
     marginLeft := theme.spacing.sm
     height := "5rem" }, w)

/-- The style object produced by `StyledSidebarHeaderContainer`. -/
structure StyledSidebarHeaderContainerStyle where
  display : String
  justifyContent : String
  alignItems : String
  padding : String
deriving DecidableEq, Repr

/-- The `StyledSidebarHeaderContainer` style rule (theme only). -/
def StyledSidebarHeaderContainer (w : World) :
    StyledSidebarHeaderContainerStyle × World :=
  let theme := w.theme
  ({ display := "flex"
     justifyContent := "space-between"
     alignItems := "start"
     padding := theme.spacing.twoXL }, w)

/-- Props of `StyledLogo`. -/
structure StyledLogoProps where
  size : String
deriving DecidableEq, Repr

/-- The style object produced by `StyledLogo`. -/
structure StyledLogoStyle where
  height : String
  margin : String
  zIndex : Int
deriving DecidableEq, Repr

/-- The `StyledLogo` style rule. -/
def StyledLogo (p : StyledLogoProps) (w : World) : StyledLogoStyle × World :=
  let theme := w.theme
  let logoHeight := if p.size = "fixed" then "1.5rem" else "auto"
  ({ height := logoHeight
     margin := "0.5rem 0 0.5rem 0"
     zIndex := theme.zIndices.header }, w)

/-- The style object produced by `StyledNoLogoSpacer`. -/
structure StyledNoLogoSpacerStyle where
  height : String
deriving DecidableEq, Repr

/-- The `StyledNoLogoSpacer` style rule (no props read). -/
def StyledNoLogoSpacer (w : World) : StyledNoLogoSpacerStyle × World :=
  ({ height := "2rem" }, w)

/-- Props of `StyledCollapseSidebarButton`. -/
structure StyledCollapseSidebarButtonProps where
  showSidebarCollapse : Bool
deriving DecidableEq, Repr

/-- The style object produced by `StyledCollapseSidebarButton`. -/
structure StyledCollapseSidebarButtonStyle where
  display : String
  transition : String
  transitionDelay : String
deriving DecidableEq, Repr

/-- The `StyledCollapseSidebarButton` style rule. -/
def StyledCollapseSidebarButton (p : StyledCollapseSidebarButtonProps) (w : World) :
    StyledCollapseSidebarButtonStyle × World :=
  ({ display := if p.showSidebarCollapse then "auto" else "none"
     transition := "left 300ms"
     transitionDelay := "left 300ms" }, w)

/-- The `&:hover, &:active, &:focus` block of `StyledViewButton`. -/
structure ViewButtonResetStyle where
  border : String
  outline : String
  boxShadow : String
deriving DecidableEq, Repr

/-- The style object produced by `StyledViewButton`. -/
structure StyledViewButtonStyle where
  fontSize : String
  lineHeight : String
  color : String
  backgroundColor : String
  border : String
  boxShadow : String
  position : String
  bottom : String
  left : String
  hoverActiveFocus : ViewButtonResetStyle
  hoverColor : String
deriving DecidableEq, Repr

/-- The `StyledViewButton` style rule (theme only). -/
def StyledViewButton (w : World) : StyledViewButtonStyle × World :=
  let theme := w.theme
  ({ fontSize := theme.fontSizes.sm
     lineHeight := "1.4rem"
     color := theme.colors.gray60
     backgroundColor := theme.colors.transparent
     border := "none"
     boxShadow := "none"
     position := "relative"
     bottom := "12px"
     left := "12px"
     hoverActiveFocus := { border := "none", outline := "none", boxShadow := "none" }
     hoverColor := theme.colors.primary }, w)

/-! ## Concrete sample inputs -/

/-- A concrete theme instance used for witnesses and counterexamples. -/
def sampleTheme : Theme :=
  { colors :=
      { bgColor := "#ffffff"
        bodyText := "#31333f"
        fadedText10 := "rgba(49, 51, 63, 0.1)"
        fadedText20 := "rgba(49, 51, 63, 0.2)"
        fadedText60 := "rgba(49, 51, 63, 0.6)"
        darkenedBgMix15 := "#eeeeee"
        darkenedBgMix25 := "#dddddd"
        gray60 := "#808495"
        transparent := "transparent"
        primary := "#ff4b4b" }
    zIndices := { header := 100, sidebarMobile := 110 }
    breakpoints := { md := "48em" }
    spacing :=
      { none := "0"
        threeXS := "0.125rem"
        twoXS := "0.25rem"
        xs := "0.375rem"
        sm := "0.5rem"
        lg := "1rem"
        twoXL := "1.5rem" }
    sizes := { sidebarTopSpace := "6rem" }
    lineHeights := { menuItem := "2" }
    fontSizes := { sm := "0.875rem" } }

/-- A world with a 100px-wide window. -/
def w100 : World := { theme := sampleTheme, innerWidth := 100, otherGlobals := 0 }

/-- A world identical to `w100` except for a 200px-wide window. -/
def w200 : World := { theme := sampleTheme, innerWidth := 200, otherGlobals := 0 }

/-- A world identical to `w100` except for the unread rest of the global
state. -/
def w100b : World := { theme := sampleTheme, innerWidth := 100, otherGlobals := 5 }

/-! ## Helper lemmas -/

/-- Once the `visible` flag is true, no event resets it. -/
theorem skStep_visible_mono (s : SkeletonState) (e : SkEvent) (h : s.visible = true) :
    (skStep s e).visible = true := by
  cases e
  · by_cases ht : s.timerActive <;> simp [skStep, ht, h]
  · simp [skStep, h]

/-- From a state that is already visible, no further flips occur. -/
theorem skFlips_of_visible (evs : List SkEvent) :
    ∀ s : SkeletonState, s.visible = true → skFlips s evs = 0 := by
  induction evs with
  | nil => intro s _; rfl
  | cons e es ih =>
    intro s h
    have h2 := skStep_visible_mono s e h
    simp [skFlips, h, h2, ih _ h2]

/-- Along any event sequence the `visible` flag changes at most once. -/
theorem skFlips_le_one (evs : List SkEvent) : ∀ s : SkeletonState, skFlips s evs ≤ 1 := by
  induction evs with
  | nil => intro s; simp [skFlips]
  | cons e es ih =>
    intro s
    by_cases hv : (skStep s e).visible = s.visible
    · simpa [skFlips, hv] using ih (skStep s e)
    · have hnew : (skStep s e).visible = true := by
        cases e
        · by_cases ht : s.timerActive <;> simp [skStep, ht] at hv ⊢
        · simp [skStep] at hv
      simp [skFlips, hv, skFlips_of_visible es _ hnew]

/-- With the timer cancelled or spent, every event is a no-op. -/
theorem skStep_of_inactive (s : SkeletonState) (e : SkEvent) (h : s.timerActive = false) :
    skStep s e = s := by
  cases s; cases e <;> simp_all [skStep]

/-- With the timer cancelled or spent, any event sequence is a no-op. -/
theorem skRun_of_inactive (evs : List SkEvent) :
    ∀ s : SkeletonState, s.timerActive = false → skRun s evs = s := by
  induction evs with
  | nil => intro s _; rfl
  | cons e es ih => intro s h; rw [skRun, skStep_of_inactive s e h, ih s h]

/-! ## Claims -/

/-- C1: for every element prop, the skeleton component renders the empty
fragment at every instant strictly before `SHOW_DELAY_MS` milliseconds
have elapsed since mount, and the placeholder layout (title skeleton,
four text-line skeletons, square skeleton) at every instant from the
moment the delay has elapsed on. -/
theorem C1_skeleton_delayed_render (element : SkeletonProto) (t : Nat) :
    (t < SHOW_DELAY_MS → renderAt element t = .emptyFragment) ∧
    (SHOW_DELAY_MS ≤ t →
      renderAt element t =
        .styledSkeleton "stAppSkeleton"
          [ .titleSkeleton,
            .paragraphSkeleton ["98%", "100%", "96%", "65%"],
            .squareSkeleton "75%" (toString element.height ++ "pt") ]) := by
  constructor
  · intro h
    simp [renderAt, stateAt, h, mountState, renderRawAppSkeleton]
  · intro h
    simp [renderAt, stateAt, Nat.not_lt.mpr h, skStep, mountState, renderRawAppSkeleton]

/-- Witness for C1 at element height 10, instants 0 and 500. -/
theorem C1_skeleton_delayed_render_witness :
    renderAt ⟨10⟩ 0 = .emptyFragment ∧
    renderAt ⟨10⟩ 500 =
      .styledSkeleton "stAppSkeleton"
        [ .titleSkeleton,
          .paragraphSkeleton ["98%", "100%", "96%", "65%"],
          .squareSkeleton "75%" (toString (10 : Nat) ++ "pt") ] :=
  ⟨(C1_skeleton_delayed_render ⟨10⟩ 0).1 (by decide),
   (C1_skeleton_delayed_render ⟨10⟩ 500).2 (by decide)⟩

/-- C3: the visibility flag starts false on mount, is monotone (no event
takes it from true back to false), and changes value at most once along
any sequence of events from the mount state. -/
theorem C3_visible_starts_false_flips_once :
    mountState.visible = false ∧
    (∀ (s : SkeletonState) (e : SkEvent), s.visible = true → (skStep s e).visible = true) ∧
    (∀ evs : List SkEvent, skFlips mountState evs ≤ 1) :=
  ⟨rfl, skStep_visible_mono, fun evs => skFlips_le_one evs mountState⟩

/-- Witness for C3: monotonicity applied at a concrete visible state and
an at-most-one-flip count on a concrete trace. -/
theorem C3_visible_starts_false_flips_once_witness :
    mountState.visible = false ∧
    (skStep ⟨true, true⟩ .cleanup).visible = true ∧
    skFlips mountState [.timerFire, .cleanup] ≤ 1 :=
  ⟨C3_visible_starts_false_flips_once.1,
   C3_visible_starts_false_flips_once.2.1 ⟨true, true⟩ .cleanup rfl,
   C3_visible_starts_false_flips_once.2.2 [.timerFire, .cleanup]⟩

/-- C4: running the effect cleanup (unmount) cancels the timer, and from
then on no event sequence can change the visibility flag: no late
`setVisible` update occurs after unmount. -/
theorem C4_unmount_cancels_timer (s : SkeletonState) (evs : List SkEvent) :
    (skStep s .cleanup).timerActive = false ∧
    (skRun (skStep s .cleanup) evs).visible = s.visible := by
  refine ⟨rfl, ?_⟩
  rw [skRun_of_inactive evs _ rfl]
  rfl

/-- C6: once the delay has elapsed, the rendered square skeleton's height
is the numeric element height concatenated with the unit suffix "pt". -/
theorem C6_square_skeleton_height (element : SkeletonProto) (t : Nat)
    (h : SHOW_DELAY_MS ≤ t) :
    squareHeights (renderAt element t) = [toString element.height ++ "pt"] := by
  simp [renderAt, stateAt, Nat.not_lt.mpr h, skStep, mountState, renderRawAppSkeleton,
    squareHeights]

/-- Witness for C6 at element height 7, instant 600. -/
theorem C6_square_skeleton_height_witness :
    SHOW_DELAY_MS ≤ 600 ∧
    squareHeights (renderAt ⟨7⟩ 600) = [toString (7 : Nat) ++ "pt"] :=
  ⟨by decide, C6_square_skeleton_height ⟨7⟩ 600 (by decide)⟩

/-- C2 counterexample: two evaluations of `StyledSidebar` with equal
props and equal theme but different `window.innerWidth` produce different
style descriptions, so the rule is not a function of exactly (props,
theme). -/
theorem C2_pure_function_counterexample :
    w100.theme = w200.theme ∧
    (StyledSidebar ⟨false, false, "21rem"⟩ w100).1 ≠
      (StyledSidebar ⟨false, false, "21rem"⟩ w200).1 := by
  refine ⟨rfl, fun h => ?_⟩
  have h2 := congrArg StyledSidebarStyle.minWidth h
  simp [StyledSidebar, w100, w200] at h2
  norm_num at h2

/-- C2 amended: every style rule of the sidebar module is deterministic
over (props, theme, window.innerWidth): two evaluations with equal props,
equal theme and equal window width produce identical style descriptions,
whatever the rest of the global state. -/
theorem C2_amended_rules_deterministic (w w2 : World) (ht : w.theme = w2.theme)
    (hi : w.innerWidth = w2.innerWidth) :
    (∀ p, (StyledSidebar p w).1 = (StyledSidebar p w2).1) ∧
    ((StyledSidebarNavContainer w).1 = (StyledSidebarNavContainer w2).1) ∧
    (∀ p, (StyledSidebarNavItems p w).1 = (StyledSidebarNavItems p w2).1) ∧
    (∀ p, (StyledSidebarNavSeparatorContainer p w).1 =
      (StyledSidebarNavSeparatorContainer p w2).1) ∧
    ((StyledSidebarNavLinkContainer w).1 = (StyledSidebarNavLinkContainer w2).1) ∧
    (∀ p, (StyledSidebarNavLink p w).1 = (StyledSidebarNavLink p w2).1) ∧
    (∀ p, (StyledSidebarLinkText p w).1 = (StyledSidebarLinkText p w2).1) ∧
    (∀ p, (StyledSidebarUserContent p w).1 = (StyledSidebarUserContent p w2).1) ∧
    (∀ p, (StyledSidebarContent p w).1 = (StyledSidebarContent p w2).1) ∧
    ((StyledSidebarCloseButton w).1 = (StyledSidebarCloseButton w2).1) ∧
    (∀ p, (StyledSidebarCollapsedControl p w).1 = (StyledSidebarCollapsedControl p w2).1) ∧
    ((StyledResizeHandle w).1 = (StyledResizeHandle w2).1) ∧
    ((StyledSidebarOpenContainer w).1 = (StyledSidebarOpenContainer w2).1) ∧
    ((StyledSidebarOpenButtonContainer w).1 = (StyledSidebarOpenButtonContainer w2).1) ∧
    ((StyledSidebarHeaderContainer w).1 = (StyledSidebarHeaderContainer w2).1) ∧
    (∀ p, (StyledLogo p w).1 = (StyledLogo p w2).1) ∧
    ((StyledNoLogoSpacer w).1 = (StyledNoLogoSpacer w2).1) ∧
    (∀ p, (StyledCollapseSidebarButton p w).1 = (StyledCollapseSidebarButton p w2).1) ∧
    ((StyledViewButton w).1 = (StyledViewButton w2).1) := by
  obtain ⟨t, i, o⟩ := w
  obtain ⟨t2, i2, o2⟩ := w2
  have ht2 : t = t2 := ht
  have hi2 : i = i2 := hi
  subst ht2; subst hi2
  exact ⟨fun _ => rfl, rfl, fun _ => rfl, fun _ => rfl, rfl, fun _ => rfl, fun _ => rfl,
    fun _ => rfl, fun _ => rfl, rfl, fun _ => rfl, rfl, rfl, rfl, rfl, fun _ => rfl, rfl,
    fun _ => rfl, rfl⟩

/-- Witness for the amended C2: equal theme and window width but a
different rest-of-world give identical `StyledSidebar` output. -/
theorem C2_amended_rules_deterministic_witness :
    (StyledSidebar ⟨true, false, "21rem"⟩ w100).1 =
      (StyledSidebar ⟨true, false, "21rem"⟩ w100b).1 :=
  (C2_amended_rules_deterministic w100 w100b rfl rfl).1 ⟨true, false, "21rem"⟩

/-- C5: `StyledSidebarNavItems` sets `maxHeight` to 100vh without sidebar
elements, 75vh with sidebar elements and expanded, 33vh with sidebar
elements and not expanded, for every flag combination. -/
theorem C5_nav_items_max_height (p : StyledSidebarNavItemsProps) (w : World) :
    (p.hasSidebarElements = false → (StyledSidebarNavItems p w).1.maxHeight = "100vh") ∧
    (p.hasSidebarElements = true → p.isExpanded = true →
      (StyledSidebarNavItems p w).1.maxHeight = "75vh") ∧
    (p.hasSidebarElements = true → p.isExpanded = false →
      (StyledSidebarNavItems p w).1.maxHeight = "33vh") := by
  refine ⟨fun h => ?_, fun h h2 => ?_, fun h h2 => ?_⟩
  · simp [StyledSidebarNavItems, h]
  · simp [StyledSidebarNavItems, h, h2]
  · simp [StyledSidebarNavItems, h, h2]

/-- Witness for C5 at the three relevant flag combinations. -/
theorem C5_nav_items_max_height_witness :
    (StyledSidebarNavItems ⟨true, false, false⟩ w100).1.maxHeight = "100vh" ∧
    (StyledSidebarNavItems ⟨true, false, true⟩ w100).1.maxHeight = "75vh" ∧
    (StyledSidebarNavItems ⟨false, false, true⟩ w100).1.maxHeight = "33vh" :=
  ⟨(C5_nav_items_max_height ⟨true, false, false⟩ w100).1 rfl,
   (C5_nav_items_max_height ⟨true, false, true⟩ w100).2.1 rfl rfl,
   (C5_nav_items_max_height ⟨false, false, true⟩ w100).2.2 rfl rfl⟩

/-- C7: no style rule of the sidebar module modifies the browser world it
is evaluated in; in particular the theme object is left unchanged. -/
theorem C7_no_style_rule_mutates_world (w : World) :
    (∀ p, (StyledSidebar p w).2 = w) ∧
    ((StyledSidebarNavContainer w).2 = w) ∧
    (∀ p, (StyledSidebarNavItems p w).2 = w) ∧
    (∀ p, (StyledSidebarNavSeparatorContainer p w).2 = w) ∧
    ((StyledSidebarNavLinkContainer w).2 = w) ∧
    (∀ p, (StyledSidebarNavLink p w).2 = w) ∧
    (∀ p, (StyledSidebarLinkText p w).2 = w) ∧
    (∀ p, (StyledSidebarUserContent p w).2 = w) ∧
    (∀ p, (StyledSidebarContent p w).2 = w) ∧
    ((StyledSidebarCloseButton w).2 = w) ∧
    (∀ p, (StyledSidebarCollapsedControl p w).2 = w) ∧
    ((StyledResizeHandle w).2 = w) ∧
    ((StyledSidebarOpenContainer w).2 = w) ∧
    ((StyledSidebarOpenButtonContainer w).2 = w) ∧
    ((StyledSidebarHeaderContainer w).2 = w) ∧
    (∀ p, (StyledLogo p w).2 = w) ∧
    ((StyledNoLogoSpacer w).2 = w) ∧
    (∀ p, (StyledCollapseSidebarButton p w).2 = w) ∧
    ((StyledViewButton w).2 = w) :=
  ⟨fun _ => rfl, rfl, fun _ => rfl, fun _ => rfl, rfl, fun _ => rfl, fun _ => rfl,
   fun _ => rfl, fun _ => rfl, rfl, fun _ => rfl, rfl, rfl, rfl, rfl, fun _ => rfl, rfl,
   fun _ => rfl, rfl⟩

/-- C8: `StyledSidebar` geometry: when collapsed, zero min and max width
and a translateX transform built from the sidebar width prop; when not
collapsed, no transform, min width `min(244, innerWidth)` and max width
`min(550, 0.9 * innerWidth)`. -/
theorem C8_sidebar_collapse_geometry (p : StyledSidebarProps) (w : World) :
    (p.isCollapsed = true →
      (StyledSidebar p w).1.minWidth = 0 ∧ (StyledSidebar p w).1.maxWidth = 0 ∧
      (StyledSidebar p w).1.transform = "translateX(-" ++ p.sidebarWidth ++ "px)") ∧
    (p.isCollapsed = false →
      (StyledSidebar p w).1.transform = "none" ∧
      (StyledSidebar p w).1.minWidth = min 244 w.innerWidth ∧
      (StyledSidebar p w).1.maxWidth = min 550 ((9 / 10) * w.innerWidth)) := by
  constructor
  · intro h
    refine ⟨?_, ?_, ?_⟩ <;> simp [StyledSidebar, h]
  · intro h
    refine ⟨?_, ?_, ?_⟩ <;> simp [StyledSidebar, h, mul_comm]

/-- Witness for C8 at a collapsed and an uncollapsed prop value. -/
theorem C8_sidebar_collapse_geometry_witness :
    (StyledSidebar ⟨true, false, "21rem"⟩ w100).1.transform =
      "translateX(-" ++ "21rem" ++ "px)" ∧
    (StyledSidebar ⟨false, false, "21rem"⟩ w100).1.minWidth = min 244 w100.innerWidth :=
  ⟨((C8_sidebar_collapse_geometry ⟨true, false, "21rem"⟩ w100).1 rfl).2.2,
   ((C8_sidebar_collapse_geometry ⟨false, false, "21rem"⟩ w100).2 rfl).2.1⟩

/-- C9: `StyledSidebarNavSeparatorContainer` sets cursor to pointer
exactly when `isExpanded || isOverflowing`, else to default. -/
theorem C9_separator_cursor (p : StyledSidebarNavSeparatorContainerProps) (w : World) :
    ((StyledSidebarNavSeparatorContainer p w).1.cursor = "pointer" ↔
      (p.isExpanded || p.isOverflowing) = true) ∧
    ((p.isExpanded || p.isOverflowing) = false →
      (StyledSidebarNavSeparatorContainer p w).1.cursor = "default") := by
  cases h : p.isExpanded || p.isOverflowing <;>
    simp [StyledSidebarNavSeparatorContainer, h]

/-- Witness for C9 with both flags false. -/
theorem C9_separator_cursor_witness :
    (StyledSidebarNavSeparatorContainer ⟨false, false⟩ w100).1.cursor = "default" :=
  (C9_separator_cursor ⟨false, false⟩ w100).2 rfl

/-- C10: `StyledLogo` sets height to 1.5rem exactly when the size prop is
the string "fixed"; any other string (including the empty string) gives
height auto. -/
theorem C10_logo_height (size : String) (w : World) :
    ((StyledLogo ⟨size⟩ w).1.height = "1.5rem" ↔ size = "fixed") ∧
    (size ≠ "fixed" → (StyledLogo ⟨size⟩ w).1.height = "auto") := by
  by_cases h : size = "fixed" <;> simp [StyledLogo, h]

/-- Witness for C10 at the strings "fixed" and "". -/
theorem C10_logo_height_witness :
    (StyledLogo ⟨"fixed"⟩ w100).1.height = "1.5rem" ∧
    (StyledLogo ⟨""⟩ w100).1.height = "auto" :=
  ⟨(C10_logo_height "fixed" w100).1.mpr rfl,
   (C10_logo_height "" w100).2 (by decide)⟩
